import Mathlib

/-!
Shallow embedding of the school-website authentication / RBAC core.

The embedded code is:
* `AuthService.authenticateUser`, `AuthService.handleFailedLogin` and
  `AuthService.buildUserFromResults` (src/services/authService.ts, shipped inside
  "DB setup sql script/SeedDataScript.sql");
* the session middleware `requireAuth`, `getUserById` and `getInactivityTimeout`
  (src/backend/src/middleware/auth.ts);
* `UserModel.isUserLocked` (src/backend/src/models/User.ts).

The relational store is modelled as explicit lists of table rows; SQL
`LEFT JOIN` / `JOIN` / `MIN` are translated join-order-faithfully.  Timestamps
are natural numbers (milliseconds).  The bcrypt primitive is passed in as an
abstract `verify : String → String → Bool` parameter, matching the external
hashing interface.  Mutating `UPDATE` statements become explicit state passing
on the database value.
-/

/-- A row of the `AdminUsers` table (the columns the auth core reads or writes).
`locked_until_ts` and `last_login_ts` are nullable timestamps in milliseconds. -/
structure UserRow where
  id : Nat
  username : String
  email : String
  full_name : String
  password_hash : String
  is_active : Bool
  is_locked : Bool
  failed_login_attempts : Nat
  locked_until_ts : Option Nat
  last_login_ts : Option Nat
  deriving DecidableEq

/-- A row of the `Roles` table.  `inactivity_timeout_minutes` is the column read
by the middleware's `getInactivityTimeout` query. -/
structure RoleRow where
  id : Nat
  role_name : String
  description : String
  is_active : Bool
  inactivity_timeout_minutes : Nat
  deriving DecidableEq

/-- A row of the `Permissions` table. -/
structure PermissionRow where
  id : Nat
  permission_name : String
  description : String
  is_active : Bool
  deriving DecidableEq

/-- A row of the `UserRoles` junction table (assignment of a role to a user). -/
structure UserRoleRow where
  user_id : Nat
  role_id : Nat
  is_active : Bool
  deriving DecidableEq

/-- A row of the `RolePermissions` junction table (grant of a permission to a
role). -/
structure RolePermissionRow where
  role_id : Nat
  permission_id : Nat
  is_granted : Bool
  deriving DecidableEq

/-- The relational store: the five tables the auth core touches. -/
structure DB where
  adminUsers : List UserRow
  roles : List RoleRow
  permissions : List PermissionRow
  userRoles : List UserRoleRow
  rolePermissions : List RolePermissionRow
  deriving DecidableEq

/-- The role-typed columns of one row of the big auth query (`r.id as role_id,
r.role_name, r.description as role_description`); all three are NULL together
when the LEFT JOIN finds no active role. -/
structure RoleCols where
  role_id : Nat
  role_name : String
  role_description : String
  deriving DecidableEq

/-- The permission-typed columns of one row of the big auth query. -/
structure PermCols where
  permission_id : Nat
  permission_name : String
  permission_description : String
  deriving DecidableEq

/-- One row of the recordset returned by the user/roles/permissions query used
by both `authenticateUser` and the middleware's `getUserById`. -/
structure QueryRow where
  id : Nat
  username : String
  email : String
  full_name : String
  password_hash : String
  is_active : Bool
  last_login_ts : Option Nat
  locked_until_ts : Option Nat
  failed_login_attempts : Nat
  role : Option RoleCols
  perm : Option PermCols
  deriving DecidableEq

/-- Assemble a recordset row from a user row plus the (possibly NULL) joined
role and permission columns. -/
def mkQueryRow (u : UserRow) (rc : Option RoleCols) (pc : Option PermCols) : QueryRow :=
  { id := u.id, username := u.username, email := u.email, full_name := u.full_name,
    password_hash := u.password_hash, is_active := u.is_active,
    last_login_ts := u.last_login_ts, locked_until_ts := u.locked_until_ts,
    failed_login_attempts := u.failed_login_attempts, role := rc, perm := pc }

/-- The SQL fragment `LEFT JOIN RolePermissions rp ON r.id = rp.role_id
     LEFT JOIN Permissions p ON rp.permission_id = p.id AND p.is_active = 1`
for a fixed (already joined) role row: one all-NULL permission column set when
the role has no grant rows, otherwise one row per grant row, whose permission
columns are NULL when no active permission matches.  Note the join does NOT
test `rp.is_granted`. -/
def permJoinRows (db : DB) (r : RoleRow) : List (Option PermCols) :=
  let rps := db.rolePermissions.filter (fun rp => rp.role_id == r.id)
  if rps.isEmpty then [none]
  else rps.map (fun rp =>
    (db.permissions.find? (fun p => p.id == rp.permission_id && p.is_active)).map
      (fun p => { permission_id := p.id, permission_name := p.permission_name,
                  permission_description := p.description }))

/-- The SQL fragment `LEFT JOIN UserRoles ur ON au.id = ur.user_id
     LEFT JOIN Roles r ON ur.role_id = r.id AND r.is_active = 1` for a fixed
user row, continued by `permJoinRows`.  Note the join does NOT test
`ur.is_active`. -/
def roleJoinRows (db : DB) (u : UserRow) : List (Option RoleCols × Option PermCols) :=
  let urs := db.userRoles.filter (fun ur => ur.user_id == u.id)
  if urs.isEmpty then [(none, none)]
  else urs.flatMap (fun ur =>
    match db.roles.find? (fun r => r.id == ur.role_id && r.is_active) with
    | none => [(none, none)]
    | some r =>
      (permJoinRows db r).map (fun pc =>
        (some { role_id := r.id, role_name := r.role_name, role_description := r.description },
         pc)))

/-- The full recordset of the auth query for every user row satisfying the SQL
WHERE predicate (`username/email` match for `authenticateUser`, `id` match plus
`is_active` for `getUserById`). -/
def queryUserRows (db : DB) (pred : UserRow → Bool) : List QueryRow :=
  (db.adminUsers.filter pred).flatMap (fun u =>
    (roleJoinRows db u).map (fun rcpc => mkQueryRow u rcpc.1 rcpc.2))

/-- Entry of `AuthUser.roles` (interface `UserRole` in src/types/auth.ts). -/
structure UserRoleEntry where
  id : Nat
  roleName : String
  description : String
  deriving DecidableEq

/-- Entry of `AuthUser.permissions` (interface `Permission`). -/
structure PermissionEntry where
  id : Nat
  permissionName : String
  description : String
  deriving DecidableEq

/-- The `AuthUser` identity snapshot returned by authentication / resolution. -/
structure AuthUser where
  id : Nat
  username : String
  email : String
  fullName : String
  isActive : Bool
  lastLoginTs : Option Nat
  lockedUntilTs : Option Nat
  failedLoginAttempts : Nat
  roles : List UserRoleEntry
  permissions : List PermissionEntry
  deriving DecidableEq

/-- One step of the `results.forEach` loop of `buildUserFromResults`, role map
part: JS tests `row.role_id && !roles.has(row.role_id)` (truthiness, so a 0 id
is skipped) and insertion order is kept. -/
def addRoleEntry (acc : List UserRoleEntry) (row : QueryRow) : List UserRoleEntry :=
  match row.role with
  | none => acc
  | some rc =>
    if rc.role_id != 0 && !(acc.any (fun x => x.id == rc.role_id)) then
      acc ++ [{ id := rc.role_id, roleName := rc.role_name,
                description := rc.role_description }]
    else acc

/-- One step of the `results.forEach` loop, permission map part. -/
def addPermissionEntry (acc : List PermissionEntry) (row : QueryRow) : List PermissionEntry :=
  match row.perm with
  | none => acc
  | some pc =>
    if pc.permission_id != 0 && !(acc.any (fun x => x.id == pc.permission_id)) then
      acc ++ [{ id := pc.permission_id, permissionName := pc.permission_name,
                description := pc.permission_description }]
    else acc

/-- Embeds `AuthService.buildUserFromResults` and the middleware's `buildUserFromResults`:
user columns are taken from `results[0]`, roles and permissions are accumulated
over all rows de-duplicating by id.  Returns `none` on an empty recordset (the
callers guard `recordset.length === 0` first). -/
def buildUserFromResults (results : List QueryRow) : Option AuthUser :=
  match results with
  | [] => none
  | user :: _ =>
    some { id := user.id, username := user.username, email := user.email,
           fullName := user.full_name, isActive := user.is_active,
           lastLoginTs := user.last_login_ts, lockedUntilTs := user.locked_until_ts,
           failedLoginAttempts := user.failed_login_attempts,
           roles := results.foldl addRoleEntry [],
           permissions := results.foldl addPermissionEntry [] }

/-- The result shape of `authenticateUser`:
`{ success: boolean; user?: AuthUser; message?: string }`. -/
structure AuthResult where
  success : Bool
  user : Option AuthUser
  message : Option String
  deriving DecidableEq

/-- The two environment-configured lockout constants of `AuthService`
(`MAX_LOGIN_ATTEMPTS`, default 5, and `LOCKOUT_TIME` in milliseconds, default
900000 = 15 minutes). -/
structure AuthConfig where
  maxLoginAttempts : Nat
  lockoutTime : Nat
  deriving DecidableEq

/-- The default configuration (no environment overrides). -/
def defaultConfig : AuthConfig := { maxLoginAttempts := 5, lockoutTime := 900000 }

/-- The effect of `UPDATE AdminUsers SET ... WHERE id = @userId`: apply `f` to every user row
whose id matches. -/
def updateUserRow (db : DB) (userId : Nat) (f : UserRow → UserRow) : DB :=
  { db with adminUsers := db.adminUsers.map (fun u => if u.id == userId then f u else u) }

/-- Embeds `AuthService.handleFailedLogin`: increment the failed counter; when the new
count reaches `maxLoginAttempts`, also set `locked_until_ts = now + lockoutTime`.
The `is_locked` flag is not touched by either UPDATE. -/
def handleFailedLogin (cfg : AuthConfig) (db : DB) (userId currentAttempts now : Nat) : DB :=
  let newAttempts := currentAttempts + 1
  if cfg.maxLoginAttempts ≤ newAttempts then
    updateUserRow db userId (fun u =>
      { u with failed_login_attempts := newAttempts,
               locked_until_ts := some (now + cfg.lockoutTime) })
  else
    updateUserRow db userId (fun u => { u with failed_login_attempts := newAttempts })

/-- The tail of `authenticateUser` after the lock check: active check, password
verification, then either the failed-login bookkeeping or the success update
(reset counter, clear lock, stamp `last_login_ts`) and the identity build. -/
def verifyAndFinish (cfg : AuthConfig) (verify : String → String → Bool) (db : DB)
    (now : Nat) (password : String) (userData : QueryRow) (recordset : List QueryRow) :
    AuthResult × DB :=
  if !userData.is_active then
    ({ success := false, user := none, message := some ("Account is disabled") }, db)
  else if !(verify password userData.password_hash) then
    ({ success := false, user := none, message := some ("Invalid credentials") },
      handleFailedLogin cfg db userData.id userData.failed_login_attempts now)
  else
    ({ success := true, user := buildUserFromResults recordset, message := none },
      updateUserRow db userData.id (fun u =>
        { u with failed_login_attempts := 0, locked_until_ts := none,
                 last_login_ts := some now }))

/-- Embeds `AuthService.authenticateUser`: query users matching
`au.username = @username OR au.email = @username` (no activity filter in the
WHERE clause), return invalid credentials on an empty recordset, then run the
lock check on `results[0]` before everything else —
`Math.ceil((locked_until_ts - Date.now()) / 60000)` is `(t - now + 59999) / 60000`
for natural-number millisecond timestamps. -/
def authenticateUser (cfg : AuthConfig) (verify : String → String → Bool) (db : DB)
    (now : Nat) (username password : String) : AuthResult × DB :=
  let recordset := queryUserRows db (fun au => au.username == username || au.email == username)
  match recordset with
  | [] => ({ success := false, user := none, message := some ("Invalid credentials") }, db)
  | userData :: rest =>
    match userData.locked_until_ts with
    | some t =>
      if now < t then
        let lockTimeRemaining := (t - now + 59999) / 60000
        ({ success := false, user := none,
           message := some ("Account is locked. Try again in " ++ toString lockTimeRemaining
                            ++ " minutes.") }, db)
      else verifyAndFinish cfg verify db now password userData (userData :: rest)
    | none => verifyAndFinish cfg verify db now password userData (userData :: rest)

/-- The middleware's `getUserById`: same join, but `WHERE au.id = @userId AND
au.is_active = 1`; a storage error (the catch branch) yields `none`
(`success: false`), exactly like an empty recordset. -/
def getUserById (db : DB) (userId : Nat) (storageError : Bool) : Option AuthUser :=
  if storageError then none
  else buildUserFromResults (queryUserRows db (fun au => au.id == userId && au.is_active))

/-- The SQL of `getInactivityTimeout`:
`SELECT MIN(r.inactivity_timeout_minutes) FROM AdminUsers au JOIN UserRoles ur
ON au.id = ur.user_id JOIN Roles r ON ur.role_id = r.id WHERE au.id = @userId
AND r.is_active = 1 AND r.inactivity_timeout_minutes > 0` — inner joins, and no
test of `ur.is_active`.  `none` models the NULL that MIN returns on an empty
row set. -/
def minTimeoutQuery (db : DB) (userId : Nat) : Option Nat :=
  ((db.adminUsers.filter (fun au => au.id == userId)).flatMap (fun au =>
    (db.userRoles.filter (fun ur => ur.user_id == au.id)).flatMap (fun ur =>
      (db.roles.filter (fun r =>
        r.id == ur.role_id && r.is_active && r.inactivity_timeout_minutes != 0)).map
          (fun r => r.inactivity_timeout_minutes)))).min?

/-- The middleware's `getInactivityTimeout`: convert the MIN to milliseconds,
`timeoutMinutes ? timeoutMinutes * 60 * 1000 : 0` (JS truthiness: NULL and 0
both yield 0); the catch branch returns 0 — no timeout on a storage error. -/
def getInactivityTimeout (db : DB) (userId : Nat) (storageError : Bool) : Nat :=
  if storageError then 0
  else
    match minTimeoutQuery db userId with
    | none => 0
    | some m => if m == 0 then 0 else m * 60 * 1000

/-- The express session data `requireAuth` reads and writes, plus a flag
recording that `session.destroy()` was called. -/
structure SessionState where
  userId : Option Nat
  lastActivity : Option Nat
  destroyed : Bool
  deriving DecidableEq

/-- Observable outcome of the `requireAuth` middleware: 401 without a bound
user, 401 after inactivity expiry (session destroyed), 401 when the fresh user
lookup fails, or success with the freshly resolved user attached. -/
inductive RequireAuthResult where
  | authRequired : RequireAuthResult
  | inactivityExpired : RequireAuthResult
  | userNotFound : RequireAuthResult
  | ok : AuthUser → RequireAuthResult
  deriving DecidableEq

/-- The `requireAuth` middleware: bound-session check, inactivity check
(`lastActivity || Date.now()` — JS truthiness, so a stored 0 falls back to
`now`), `lastActivity` refresh, then the fresh `getUserById` resolution. -/
def requireAuth (db : DB) (sess : SessionState) (now : Nat)
    (timeoutLookupError userLookupError : Bool) : RequireAuthResult × SessionState :=
  match sess.userId with
  | none => (.authRequired, sess)
  | some uid =>
    let inactivityTimeout := getInactivityTimeout db uid timeoutLookupError
    let lastActivity := match sess.lastActivity with
      | none => now
      | some la => if la == 0 then now else la
    if decide (0 < inactivityTimeout) && decide (inactivityTimeout < now - lastActivity) then
      (.inactivityExpired, { sess with destroyed := true })
    else
      let sess2 := { sess with lastActivity := some now }
      match getUserById db uid userLookupError with
      | none => (.userNotFound, sess2)
      | some user => (.ok user, sess2)

/-- Embeds `UserModel.isUserLocked` (return value only; the `unlockUser` persistence
side effect taken on an expired lock does not affect the returned boolean):
`if (!user.IS_LOCKED) return false;` then unlock-and-false when
`LOCKED_UNTIL_TS` is set and strictly past, else true. -/
def isUserLocked (u : UserRow) (now : Nat) : Bool :=
  if !u.is_locked then false
  else
    match u.locked_until_ts with
    | some t => if t < now then false else true
    | none => true

/-! ## Helper lemmas -/

theorem permJoinRows_ne_nil (db : DB) (r : RoleRow) : permJoinRows db r ≠ [] := by
  by_cases h : (db.rolePermissions.filter (fun rp => rp.role_id == r.id)).isEmpty
  · simp [permJoinRows, h]
  · simp only [permJoinRows, h, if_neg, Bool.false_eq_true, not_false_iff, ite_false,
      ne_eq, List.map_eq_nil_iff]
    simpa [List.isEmpty_iff] using h

theorem roleJoinRows_ne_nil (db : DB) (u : UserRow) : roleJoinRows db u ≠ [] := by
  by_cases h : (db.userRoles.filter (fun ur => ur.user_id == u.id)).isEmpty
  · simp [roleJoinRows, h]
  · rw [List.isEmpty_iff] at h
    simp only [roleJoinRows, List.isEmpty_iff, h, ite_false, ne_eq, List.flatMap_eq_nil_iff,
      not_forall]
    rcases List.exists_mem_of_ne_nil _ h with ⟨ur, hur⟩
    refine ⟨ur, hur, ?_⟩
    cases hf : db.roles.find? (fun r => r.id == ur.role_id && r.is_active) with
    | none => simp
    | some r => simpa using permJoinRows_ne_nil db r

theorem queryUserRows_cons (db : DB) (pred : UserRow → Bool) (u : UserRow)
    (h : db.adminUsers.filter pred = [u]) :
    ∃ rc pc rest, queryUserRows db pred = mkQueryRow u rc pc :: rest := by
  unfold queryUserRows
  rw [h]
  cases hr : roleJoinRows db u with
  | nil => exact absurd hr (roleJoinRows_ne_nil db u)
  | cons hd tl =>
    refine ⟨hd.1, hd.2, tl.map (fun rcpc => mkQueryRow u rcpc.1 rcpc.2), ?_⟩
    simp [hr]

theorem queryUserRows_nil (db : DB) (pred : UserRow → Bool)
    (h : db.adminUsers.filter pred = []) : queryUserRows db pred = [] := by
  unfold queryUserRows
  rw [h]
  rfl

theorem authenticateUser_no_match (cfg : AuthConfig) (verify : String → String → Bool)
    (db : DB) (now : Nat) (username password : String)
    (h : db.adminUsers.filter (fun au => au.username == username || au.email == username) = []) :
    authenticateUser cfg verify db now username password =
      ({ success := false, user := none, message := some ("Invalid credentials") }, db) := by
  simp only [authenticateUser, queryUserRows_nil db _ h]

theorem authenticateUser_locked (cfg : AuthConfig) (verify : String → String → Bool)
    (db : DB) (now : Nat) (username password : String) (u : UserRow) (t : Nat)
    (hf : db.adminUsers.filter (fun au => au.username == username || au.email == username) = [u])
    (hl : u.locked_until_ts = some t) (hnow : now < t) :
    authenticateUser cfg verify db now username password =
      ({ success := false, user := none,
         message := some ("Account is locked. Try again in "
                          ++ toString ((t - now + 59999) / 60000) ++ " minutes.") }, db) := by
  obtain ⟨rc, pc, rest, hq⟩ := queryUserRows_cons db _ u hf
  simp only [authenticateUser, hq]
  simp [mkQueryRow, hl, hnow]

theorem authenticateUser_not_locked (cfg : AuthConfig) (verify : String → String → Bool)
    (db : DB) (now : Nat) (username password : String) (u : UserRow)
    (hf : db.adminUsers.filter (fun au => au.username == username || au.email == username) = [u])
    (hlock : ∀ t, u.locked_until_ts = some t → t ≤ now) :
    ∃ rc pc rest, authenticateUser cfg verify db now username password =
      verifyAndFinish cfg verify db now password (mkQueryRow u rc pc)
        (mkQueryRow u rc pc :: rest) := by
  obtain ⟨rc, pc, rest, hq⟩ := queryUserRows_cons db _ u hf
  refine ⟨rc, pc, rest, ?_⟩
  simp only [authenticateUser, hq]
  cases hl : u.locked_until_ts with
  | none => simp [mkQueryRow, hl]
  | some t =>
    have ht : ¬ now < t := Nat.not_lt.mpr (hlock t hl)
    simp [mkQueryRow, hl, ht]

theorem authenticateUser_disabled (cfg : AuthConfig) (verify : String → String → Bool)
    (db : DB) (now : Nat) (username password : String) (u : UserRow)
    (hf : db.adminUsers.filter (fun au => au.username == username || au.email == username) = [u])
    (hlock : ∀ t, u.locked_until_ts = some t → t ≤ now)
    (hact : u.is_active = false) :
    authenticateUser cfg verify db now username password =
      ({ success := false, user := none, message := some ("Account is disabled") }, db) := by
  obtain ⟨rc, pc, rest, hq⟩ := authenticateUser_not_locked cfg verify db now username password u hf hlock
  rw [hq]
  simp [verifyAndFinish, mkQueryRow, hact]

theorem authenticateUser_wrong_password (cfg : AuthConfig) (verify : String → String → Bool)
    (db : DB) (now : Nat) (username password : String) (u : UserRow)
    (hf : db.adminUsers.filter (fun au => au.username == username || au.email == username) = [u])
    (hlock : ∀ t, u.locked_until_ts = some t → t ≤ now)
    (hact : u.is_active = true)
    (hv : verify password u.password_hash = false) :
    authenticateUser cfg verify db now username password =
      ({ success := false, user := none, message := some ("Invalid credentials") },
        handleFailedLogin cfg db u.id u.failed_login_attempts now) := by
  obtain ⟨rc, pc, rest, hq⟩ := authenticateUser_not_locked cfg verify db now username password u hf hlock
  rw [hq]
  simp [verifyAndFinish, mkQueryRow, hact, hv]

theorem authenticateUser_success (cfg : AuthConfig) (verify : String → String → Bool)
    (db : DB) (now : Nat) (username password : String) (u : UserRow)
    (hf : db.adminUsers.filter (fun au => au.username == username || au.email == username) = [u])
    (hlock : ∀ t, u.locked_until_ts = some t → t ≤ now)
    (hact : u.is_active = true)
    (hv : verify password u.password_hash = true) :
    (authenticateUser cfg verify db now username password).1.success = true ∧
    (authenticateUser cfg verify db now username password).1.message = none ∧
    (authenticateUser cfg verify db now username password).2 =
      updateUserRow db u.id (fun w =>
        { w with failed_login_attempts := 0, locked_until_ts := none,
                 last_login_ts := some now }) := by
  obtain ⟨rc, pc, rest, hq⟩ := authenticateUser_not_locked cfg verify db now username password u hf hlock
  rw [hq]
  simp [verifyAndFinish, mkQueryRow, hact, hv]

theorem handleFailedLogin_singleton (cfg : AuthConfig) (db : DB) (u : UserRow)
    (attempts now : Nat) (hdb : db.adminUsers = [u]) :
    handleFailedLogin cfg db u.id attempts now =
      { db with adminUsers := [if cfg.maxLoginAttempts ≤ attempts + 1 then
          { u with failed_login_attempts := attempts + 1,
                   locked_until_ts := some (now + cfg.lockoutTime) }
        else { u with failed_login_attempts := attempts + 1 }] } := by
  by_cases h : cfg.maxLoginAttempts ≤ attempts + 1 <;>
    simp [handleFailedLogin, updateUserRow, hdb, h]

/-- Sample verifier standing in for `bcrypt.compare` in concrete witnesses:
the password matches exactly when it equals the stored digest. -/
def sampleVerify : String → String → Bool := fun password hash => password == hash

/-- Concrete user fixture for witnesses: active, unlocked, no failed attempts. -/
def sampleUser : UserRow :=
  { id := 1, username := "alice", email := "alice@school.edu", full_name := "Alice A",
    password_hash := "correct-digest", is_active := true, is_locked := false,
    failed_login_attempts := 0, locked_until_ts := none, last_login_ts := none }

/-- Concrete single-user database fixture for witnesses. -/
def sampleDB : DB :=
  { adminUsers := [sampleUser], roles := [], permissions := [], userRoles := [],
    rolePermissions := [] }

/-- C3: a wrong-password attempt against an existing, active, non-locked user
increments the failed-attempt counter by one; when the new count reaches the
configured maximum the lock timestamp `now + lockoutTime` is persisted with it,
otherwise only the incremented counter is persisted; in both cases the caller
gets the uniform invalid-credentials failure. -/
theorem C3_failed_attempt_bookkeeping (cfg : AuthConfig) (verify : String → String → Bool)
    (db : DB) (now : Nat) (username password : String) (u : UserRow)
    (hdb : db.adminUsers = [u])
    (hm : (u.username == username || u.email == username) = true)
    (hlock : ∀ t, u.locked_until_ts = some t → t ≤ now)
    (hact : u.is_active = true)
    (hv : verify password u.password_hash = false) :
    (authenticateUser cfg verify db now username password).1 =
      { success := false, user := none, message := some ("Invalid credentials") } ∧
    (cfg.maxLoginAttempts ≤ u.failed_login_attempts + 1 →
      (authenticateUser cfg verify db now username password).2.adminUsers =
        [{ u with failed_login_attempts := u.failed_login_attempts + 1,
                  locked_until_ts := some (now + cfg.lockoutTime) }]) ∧
    (u.failed_login_attempts + 1 < cfg.maxLoginAttempts →
      (authenticateUser cfg verify db now username password).2.adminUsers =
        [{ u with failed_login_attempts := u.failed_login_attempts + 1 }]) := by
  have hf : db.adminUsers.filter
      (fun au => au.username == username || au.email == username) = [u] := by
    rw [hdb]; simp [hm]
  rw [authenticateUser_wrong_password cfg verify db now username password u hf hlock hact hv,
      handleFailedLogin_singleton cfg db u _ now hdb]
  refine ⟨rfl, fun h => ?_, fun h => ?_⟩
  · simp [h]
  · simp [Nat.not_le.mpr h]

/-- Witness for C3: the fixture user at 0 failed attempts, wrong password,
default configuration — the counter becomes 1 and no lock is set. -/
theorem C3_witness :
    (sampleDB.adminUsers = [sampleUser] ∧
     (sampleUser.username == "alice" || sampleUser.email == "alice") = true ∧
     (∀ t, sampleUser.locked_until_ts = some t → t ≤ 1000) ∧
     sampleUser.is_active = true ∧
     sampleVerify ("wrong") sampleUser.password_hash = false) ∧
    ((authenticateUser defaultConfig sampleVerify sampleDB 1000 "alice" "wrong").1 =
      { success := false, user := none, message := some ("Invalid credentials") } ∧
    (defaultConfig.maxLoginAttempts ≤ sampleUser.failed_login_attempts + 1 →
      (authenticateUser defaultConfig sampleVerify sampleDB 1000 "alice" "wrong").2.adminUsers =
        [{ sampleUser with
             failed_login_attempts := sampleUser.failed_login_attempts + 1,
             locked_until_ts := some (1000 + defaultConfig.lockoutTime) }]) ∧
    (sampleUser.failed_login_attempts + 1 < defaultConfig.maxLoginAttempts →
      (authenticateUser defaultConfig sampleVerify sampleDB 1000 "alice" "wrong").2.adminUsers =
        [{ sampleUser with failed_login_attempts := sampleUser.failed_login_attempts + 1 }])) :=
  ⟨⟨rfl, by decide, fun t ht => by simp [sampleUser] at ht, rfl, by decide⟩,
   C3_failed_attempt_bookkeeping defaultConfig sampleVerify sampleDB 1000 "alice" "wrong"
     sampleUser rfl (by decide) (fun t ht => by simp [sampleUser] at ht) rfl (by decide)⟩

/-- C4: whenever `locked_until_ts` is set and strictly in the future, the
attempt fails with the account-locked message carrying
`remaining_minutes = ⌈(locked_until - now) / 60000 ms⌉` (Mathlib ceiling
division), the database is untouched, and the outcome does not depend on the
submitted password or the verifier at all — the lock check runs before
password verification, so even the correct password is rejected until the
window elapses. -/
theorem C4_lock_precedes_password (cfg : AuthConfig) (verify : String → String → Bool)
    (db : DB) (now : Nat) (username password : String) (u : UserRow) (t : Nat)
    (hf : db.adminUsers.filter (fun au => au.username == username || au.email == username) = [u])
    (hl : u.locked_until_ts = some t) (hnow : now < t) :
    authenticateUser cfg verify db now username password =
      ({ success := false, user := none,
         message := some ("Account is locked. Try again in "
                          ++ toString ((t - now) ⌈/⌉ 60000) ++ " minutes.") }, db) := by
  rw [show ((t - now) ⌈/⌉ 60000) = (t - now + 59999) / 60000 from rfl]
  exact authenticateUser_locked cfg verify db now username password u t hf hl hnow

/-- Locked user fixture for the C4 witness: locked until t = 901000 ms. -/
def lockedUser : UserRow :=
  { sampleUser with locked_until_ts := some 901000 }

/-- Single-user database holding `lockedUser`. -/
def lockedDB : DB :=
  { adminUsers := [lockedUser], roles := [], permissions := [], userRoles := [],
    rolePermissions := [] }

/-- Witness for C4: at now = 1000 the locked fixture user is rejected with
"Try again in 15 minutes" even though the submitted password is the correct
one. -/
theorem C4_witness :
    (lockedDB.adminUsers.filter
       (fun au => au.username == "alice" || au.email == "alice") = [lockedUser] ∧
     lockedUser.locked_until_ts = some 901000 ∧ 1000 < 901000) ∧
    authenticateUser defaultConfig sampleVerify lockedDB 1000 "alice" "correct-digest" =
      ({ success := false, user := none,
         message := some ("Account is locked. Try again in "
                          ++ toString ((901000 - 1000) ⌈/⌉ 60000) ++ " minutes.") }, lockedDB) :=
  ⟨⟨by decide, rfl, by decide⟩,
   C4_lock_precedes_password defaultConfig sampleVerify lockedDB 1000 "alice" "correct-digest"
     lockedUser 901000 (by decide) rfl (by decide)⟩

/-- C6: a successful authentication (correct password, active user, no live
lock) returns success and persists, before returning, the reset of the
failed-attempt counter to 0, the cleared lock and `last_login_ts = now`,
whatever the prior counter value and (expired) lock state were. -/
theorem C6_success_resets_counters (cfg : AuthConfig) (verify : String → String → Bool)
    (db : DB) (now : Nat) (username password : String) (u : UserRow)
    (hdb : db.adminUsers = [u])
    (hm : (u.username == username || u.email == username) = true)
    (hlock : ∀ t, u.locked_until_ts = some t → t ≤ now)
    (hact : u.is_active = true)
    (hv : verify password u.password_hash = true) :
    (authenticateUser cfg verify db now username password).1.success = true ∧
    (authenticateUser cfg verify db now username password).2 =
      { db with adminUsers := [{ u with
                                   failed_login_attempts := 0,
                                   locked_until_ts := none,
                                   last_login_ts := some now }] } := by
  have hf : db.adminUsers.filter
      (fun au => au.username == username || au.email == username) = [u] := by
    rw [hdb]; simp [hm]
  obtain ⟨h1, _, h3⟩ :=
    authenticateUser_success cfg verify db now username password u hf hlock hact hv
  refine ⟨h1, ?_⟩
  rw [h3]
  simp [updateUserRow, hdb]

/-- User fixture for the C6 witness: 4 failed attempts and an expired lock. -/
def staleLockUser : UserRow :=
  { sampleUser with failed_login_attempts := 4, locked_until_ts := some 500 }

/-- Single-user database holding `staleLockUser`. -/
def staleLockDB : DB :=
  { adminUsers := [staleLockUser], roles := [], permissions := [], userRoles := [],
    rolePermissions := [] }

/-- Witness for C6: logging in with the correct password at now = 1000 (the
stale lock expired at 500) resets the counter from 4 to 0, clears the lock and
stamps the login time. -/
theorem C6_witness :
    (staleLockDB.adminUsers = [staleLockUser] ∧
     (staleLockUser.username == "alice" || staleLockUser.email == "alice") = true ∧
     (∀ t, staleLockUser.locked_until_ts = some t → t ≤ 1000) ∧
     staleLockUser.is_active = true ∧
     sampleVerify ("correct-digest") staleLockUser.password_hash = true) ∧
    ((authenticateUser defaultConfig sampleVerify staleLockDB 1000 "alice" "correct-digest").1.success
       = true ∧
     (authenticateUser defaultConfig sampleVerify staleLockDB 1000 "alice" "correct-digest").2 =
      { staleLockDB with adminUsers := [{ staleLockUser with
                                            failed_login_attempts := 0,
                                            locked_until_ts := none,
                                            last_login_ts := some 1000 }] }) :=
  ⟨⟨rfl, by decide, fun t ht => by simp [staleLockUser, sampleUser] at ht; omega, rfl, by decide⟩,
   C6_success_resets_counters defaultConfig sampleVerify staleLockDB 1000 "alice" "correct-digest"
     staleLockUser rfl (by decide)
     (fun t ht => by simp [staleLockUser, sampleUser] at ht; omega) rfl (by decide)⟩

/-- C7: the observable result of an attempt whose identifier matches no user
equals the observable result of an attempt against an existing, active,
non-locked user with a wrong password — the uniform invalid-credentials
failure, revealing nothing about identifier existence. -/
theorem C7_uniform_invalid_credentials (cfg : AuthConfig) (verify : String → String → Bool)
    (db : DB) (now : Nat) (idA idB pwdA pwdB : String) (u : UserRow)
    (hA : db.adminUsers.filter (fun au => au.username == idA || au.email == idA) = [])
    (hB : db.adminUsers.filter (fun au => au.username == idB || au.email == idB) = [u])
    (hlock : ∀ t, u.locked_until_ts = some t → t ≤ now)
    (hact : u.is_active = true)
    (hv : verify pwdB u.password_hash = false) :
    (authenticateUser cfg verify db now idA pwdA).1 =
      (authenticateUser cfg verify db now idB pwdB).1 := by
  rw [authenticateUser_no_match cfg verify db now idA pwdA hA,
      authenticateUser_wrong_password cfg verify db now idB pwdB u hB hlock hact hv]

/-- Witness for C7: "mallory" matches nobody, "alice" exists with a wrong
password; the two returned results coincide. -/
theorem C7_witness :
    (sampleDB.adminUsers.filter
       (fun au => au.username == "mallory" || au.email == "mallory") = [] ∧
     sampleDB.adminUsers.filter
       (fun au => au.username == "alice" || au.email == "alice") = [sampleUser] ∧
     (∀ t, sampleUser.locked_until_ts = some t → t ≤ 1000) ∧
     sampleUser.is_active = true ∧
     sampleVerify ("wrong") sampleUser.password_hash = false) ∧
    (authenticateUser defaultConfig sampleVerify sampleDB 1000 "mallory" "anything").1 =
      (authenticateUser defaultConfig sampleVerify sampleDB 1000 "alice" "wrong").1 :=
  ⟨⟨by decide, by decide, fun t ht => by simp [sampleUser] at ht, rfl, by decide⟩,
   C7_uniform_invalid_credentials defaultConfig sampleVerify sampleDB 1000 "mallory" "alice"
     "anything" "wrong" sampleUser (by decide) (by decide)
     (fun t ht => by simp [sampleUser] at ht) rfl (by decide)⟩

/-- Scenario harness: the database state after `n` consecutive
`authenticateUser` calls with the same identifier and password, all at the
same instant. -/
def attemptChain (cfg : AuthConfig) (verify : String → String → Bool) (db : DB)
    (now : Nat) (username password : String) : Nat → DB
  | 0 => db
  | n + 1 => (authenticateUser cfg verify
      (attemptChain cfg verify db now username password n) now username password).2

/-- C2 is false as stated: for the fixture user (active, 0 prior failed
attempts) under the default configuration (maxAttempts = 5), the 5th
consecutive wrong-password attempt returns the uniform invalid-credentials
failure, not the account-locked failure — even though this very attempt is the
one that persists `locked_until_ts = now + 900000`. -/
theorem C2_counterexample :
    (authenticateUser defaultConfig sampleVerify
        (attemptChain defaultConfig sampleVerify sampleDB 1000 "alice" "wrong" 4)
        1000 "alice" "wrong").1 =
      { success := false, user := none, message := some ("Invalid credentials") } ∧
    (authenticateUser defaultConfig sampleVerify
        (attemptChain defaultConfig sampleVerify sampleDB 1000 "alice" "wrong" 4)
        1000 "alice" "wrong").1.message ≠
      some ("Account is locked. Try again in 15 minutes.") ∧
    (attemptChain defaultConfig sampleVerify sampleDB 1000 "alice" "wrong" 5).adminUsers.map
      (fun w => w.locked_until_ts) = [some 901000] := by
  refine ⟨?_, ?_, ?_⟩ <;> decide

/-- C2 (amended): for an active user with 0 prior failed attempts under
`maxAttempts = 5`, the 5th consecutive wrong-password attempt returns the
uniform invalid-credentials failure while persisting the lock
`locked_until_ts = now + lockoutTime`; it is the next attempt, made while the
window is open, that returns the account-locked failure, whose
`remaining_minutes = ⌈(locked_until - now2) / 60000 ms⌉` equals the configured
lockout duration in minutes when made immediately. -/
theorem C2_lock_persisted_on_fifth_reported_on_sixth (verify : String → String → Bool)
    (L : Nat) (db : DB) (u : UserRow) (now : Nat) (pwd : String)
    (hdb : db.adminUsers = [u])
    (hact : u.is_active = true)
    (hf0 : u.failed_login_attempts = 0)
    (hl0 : u.locked_until_ts = none)
    (hv : verify pwd u.password_hash = false) :
    (authenticateUser { maxLoginAttempts := 5, lockoutTime := L } verify
        (attemptChain { maxLoginAttempts := 5, lockoutTime := L } verify db now
          u.username pwd 4) now u.username pwd).1 =
      { success := false, user := none, message := some ("Invalid credentials") } ∧
    (attemptChain { maxLoginAttempts := 5, lockoutTime := L } verify db now
        u.username pwd 5).adminUsers =
      [{ u with failed_login_attempts := 5, locked_until_ts := some (now + L) }] ∧
    (∀ now2 pwd2, now2 < now + L →
      (authenticateUser { maxLoginAttempts := 5, lockoutTime := L } verify
          (attemptChain { maxLoginAttempts := 5, lockoutTime := L } verify db now
            u.username pwd 5) now2 u.username pwd2).1 =
        { success := false, user := none,
          message := some ("Account is locked. Try again in "
                           ++ toString ((now + L - now2) ⌈/⌉ 60000) ++ " minutes.") }) := by
  have wrong : ∀ (d : DB) (v : UserRow), d.adminUsers = [v] →
      v.username = u.username → v.is_active = true → v.locked_until_ts = none →
      v.password_hash = u.password_hash →
      authenticateUser { maxLoginAttempts := 5, lockoutTime := L } verify d now
          u.username pwd =
        ({ success := false, user := none, message := some ("Invalid credentials") },
         handleFailedLogin { maxLoginAttempts := 5, lockoutTime := L } d v.id
           v.failed_login_attempts now) := by
    intro d v hd hu ha hl hp
    refine authenticateUser_wrong_password _ verify d now u.username pwd v ?_ ?_ ha ?_
    · rw [hd]; simp [hu]
    · intro t ht; rw [hl] at ht; cases ht
    · rw [hp]; exact hv
  have chain : ∀ k, k ≤ 3 →
      attemptChain { maxLoginAttempts := 5, lockoutTime := L } verify db now
        u.username pwd (k + 1) =
      { db with adminUsers := [{ u with failed_login_attempts := k + 1 }] } := by
    intro k
    induction k with
    | zero =>
      intro _
      show (authenticateUser _ verify db now u.username pwd).2 = _
      rw [wrong db u hdb rfl hact hl0 rfl,
          handleFailedLogin_singleton _ db u u.failed_login_attempts now hdb]
      simp [hf0]
    | succ n ih =>
      intro hn
      show (authenticateUser _ verify
        (attemptChain _ verify db now u.username pwd (n + 1)) now u.username pwd).2 = _
      rw [ih (by omega),
          wrong { db with adminUsers := [{ u with failed_login_attempts := n + 1 }] }
            { u with failed_login_attempts := n + 1 } rfl rfl hact hl0 rfl,
          handleFailedLogin_singleton _ _ { u with failed_login_attempts := n + 1 }
            (n + 1) now rfl]
      rw [if_neg (show ¬((5:Nat) ≤ n + 1 + 1) by omega)]
  have e4 := chain 3 (by omega)
  have e5 : attemptChain { maxLoginAttempts := 5, lockoutTime := L } verify db now
      u.username pwd 5 =
      { db with adminUsers :=
          [{ u with failed_login_attempts := 5, locked_until_ts := some (now + L) }] } := by
    show (authenticateUser _ verify
      (attemptChain _ verify db now u.username pwd 4) now u.username pwd).2 = _
    rw [e4,
        wrong { db with adminUsers := [{ u with failed_login_attempts := 4 }] }
          { u with failed_login_attempts := 4 } rfl rfl hact hl0 rfl,
        handleFailedLogin_singleton _ _ { u with failed_login_attempts := 4 } 4 now rfl]
    rw [if_pos (show (5:Nat) ≤ 4 + 1 by omega)]
  refine ⟨?_, ?_, ?_⟩
  · rw [e4,
        wrong { db with adminUsers := [{ u with failed_login_attempts := 4 }] }
          { u with failed_login_attempts := 4 } rfl rfl hact hl0 rfl]
  · rw [e5]
  · intro now2 pwd2 hn2
    have hf5 : ({ db with adminUsers :=
        [{ u with failed_login_attempts := 5, locked_until_ts := some (now + L) }] } : DB).adminUsers.filter
        (fun au => au.username == u.username || au.email == u.username) =
        [{ u with failed_login_attempts := 5, locked_until_ts := some (now + L) }] := by
      simp
    rw [show ((now + L - now2) ⌈/⌉ 60000) = (now + L - now2 + 59999) / 60000 from rfl, e5,
        authenticateUser_locked _ verify _ now2 u.username pwd2
          { u with failed_login_attempts := 5, locked_until_ts := some (now + L) }
          (now + L) hf5 rfl hn2]

/-- Witness for the amended C2: the fixture user with lockout duration 900000
ms locks exactly on the 5th wrong attempt and is reported locked on the 6th. -/
theorem C2_witness :
    (sampleDB.adminUsers = [sampleUser] ∧ sampleUser.is_active = true ∧
     sampleUser.failed_login_attempts = 0 ∧ sampleUser.locked_until_ts = none ∧
     sampleVerify ("wrong") sampleUser.password_hash = false) ∧
    ((authenticateUser { maxLoginAttempts := 5, lockoutTime := 900000 } sampleVerify
        (attemptChain { maxLoginAttempts := 5, lockoutTime := 900000 } sampleVerify sampleDB
          1000 sampleUser.username ("wrong") 4) 1000 sampleUser.username ("wrong")).1 =
      { success := false, user := none, message := some ("Invalid credentials") } ∧
    (attemptChain { maxLoginAttempts := 5, lockoutTime := 900000 } sampleVerify sampleDB
        1000 sampleUser.username ("wrong") 5).adminUsers =
      [{ sampleUser with failed_login_attempts := 5,
                         locked_until_ts := some (1000 + 900000) }] ∧
    (∀ now2 pwd2, now2 < 1000 + 900000 →
      (authenticateUser { maxLoginAttempts := 5, lockoutTime := 900000 } sampleVerify
          (attemptChain { maxLoginAttempts := 5, lockoutTime := 900000 } sampleVerify sampleDB
            1000 sampleUser.username ("wrong") 5) now2 sampleUser.username pwd2).1 =
        { success := false, user := none,
          message := some ("Account is locked. Try again in "
                           ++ toString ((1000 + 900000 - now2) ⌈/⌉ 60000)
                           ++ " minutes.") })) :=
  ⟨⟨rfl, rfl, rfl, rfl, by decide⟩,
   C2_lock_persisted_on_fifth_reported_on_sixth sampleVerify 900000 sampleDB sampleUser
     1000 "wrong" rfl rfl rfl rfl (by decide)⟩

/-- C10: `AuthService.handleFailedLogin` locks an account by writing only
`failed_login_attempts` and `locked_until_ts`, never the `is_locked` flag,
while `UserModel.isUserLocked` answers false whenever `is_locked` is false —
regardless of a live `locked_until_ts` — so every account locked through the
failed-attempt path is reported as not locked, at every instant `t2`. -/
theorem C10_is_locked_flag_never_set (cfg : AuthConfig) (db : DB)
    (userId attempts now t2 : Nat)
    (h : ∀ u ∈ db.adminUsers, u.is_locked = false) :
    ∀ w ∈ (handleFailedLogin cfg db userId attempts now).adminUsers,
      w.is_locked = false ∧ isUserLocked w t2 = false := by
  intro w hw
  have key : w.is_locked = false := by
    by_cases hc : cfg.maxLoginAttempts ≤ attempts + 1
    · simp only [handleFailedLogin, updateUserRow, hc, ite_true] at hw
      rcases List.mem_map.mp hw with ⟨u, hu, rfl⟩
      by_cases hid : u.id == userId <;> simp [hid] <;> exact h u hu
    · simp only [handleFailedLogin, updateUserRow, hc, ite_false] at hw
      rcases List.mem_map.mp hw with ⟨u, hu, rfl⟩
      by_cases hid : u.id == userId <;> simp [hid] <;> exact h u hu
  exact ⟨key, by simp [isUserLocked, key]⟩

/-- Witness for C10: the fixture user at 4 failed attempts gets locked (the
increment reaches 5 and `locked_until_ts = 901000` is persisted), yet at
t2 = 1500 — well inside the lock window — `isUserLocked` still says false. -/
theorem C10_witness :
    (∀ u ∈ staleLockDB.adminUsers, u.is_locked = false) ∧
    ((handleFailedLogin defaultConfig staleLockDB 1 4 1000).adminUsers.map
      (fun w => w.locked_until_ts) = [some 901000]) ∧
    (∀ w ∈ (handleFailedLogin defaultConfig staleLockDB 1 4 1000).adminUsers,
      w.is_locked = false ∧ isUserLocked w 1500 = false) :=
  ⟨by decide, by decide,
   C10_is_locked_flag_never_set defaultConfig staleLockDB 1 4 1000 1500 (by decide)⟩

/-- C8: when the inactivity-timeout lookup hits a storage error, `requireAuth`
fails open — the session can never be rejected as inactivity-expired and
validation succeeds whenever the fresh user resolution succeeds — whereas a
storage error in the user lookup itself fails closed with the
user-not-found rejection. -/
theorem C8_timeout_lookup_fails_open (db : DB) (sess : SessionState) (now uid : Nat)
    (uerr : Bool) (h : sess.userId = some uid) :
    (requireAuth db sess now true uerr).1 ≠ RequireAuthResult.inactivityExpired ∧
    (∀ au, getUserById db uid false = some au →
      (requireAuth db sess now true false).1 = RequireAuthResult.ok au) ∧
    (requireAuth db sess now true true).1 = RequireAuthResult.userNotFound := by
  refine ⟨?_, ?_, ?_⟩
  · simp only [requireAuth, h, getInactivityTimeout, ite_true]
    cases hg : getUserById db uid uerr <;> simp [hg]
  · intro au hau
    simp [requireAuth, h, getInactivityTimeout, hau]
  · simp [requireAuth, h, getInactivityTimeout, getUserById]

/-- Witness for C8: a bound session for the fixture user; with the timeout
lookup erroring, validation succeeds with the resolved user; with the user
lookup also erroring, it is rejected. -/
theorem C8_witness :
    ({ userId := some 1, lastActivity := some 1, destroyed := false
       : SessionState }.userId = some 1) ∧
    ((requireAuth sampleDB { userId := some 1, lastActivity := some 1, destroyed := false }
        1000000000 true false).1 ≠ RequireAuthResult.inactivityExpired ∧
     (∀ au, getUserById sampleDB 1 false = some au →
       (requireAuth sampleDB { userId := some 1, lastActivity := some 1, destroyed := false }
          1000000000 true false).1 = RequireAuthResult.ok au) ∧
     (requireAuth sampleDB { userId := some 1, lastActivity := some 1, destroyed := false }
        1000000000 true true).1 = RequireAuthResult.userNotFound) :=
  ⟨rfl,
   (C8_timeout_lookup_fails_open sampleDB
     { userId := some 1, lastActivity := some 1, destroyed := false } 1000000000 1 false
     rfl).1,
   (C8_timeout_lookup_fails_open sampleDB
     { userId := some 1, lastActivity := some 1, destroyed := false } 1000000000 1 false
     rfl).2.1,
   (C8_timeout_lookup_fails_open sampleDB
     { userId := some 1, lastActivity := some 1, destroyed := false } 1000000000 1 false
     rfl).2.2⟩

/-- Spec-side comparator for C5, following the spec's words: the per-role
timeout values (minutes) of the user's active roles that have the inactivity
policy enabled — enabledness being a positive per-role timeout value. -/
def specEnabledTimeouts (db : DB) (uid : Nat) : List Nat :=
  (db.roles.filter (fun r => r.is_active && r.inactivity_timeout_minutes != 0 &&
      db.userRoles.any (fun ur => ur.user_id == uid && ur.role_id == r.id))).map
    (fun r => r.inactivity_timeout_minutes)

theorem minTimeout_vals_iff (db : DB) (uid m : Nat) :
    (m ∈ (db.adminUsers.filter (fun au => au.id == uid)).flatMap (fun au =>
      (db.userRoles.filter (fun ur => ur.user_id == au.id)).flatMap (fun ur =>
        (db.roles.filter (fun r =>
          r.id == ur.role_id && r.is_active && r.inactivity_timeout_minutes != 0)).map
            (fun r => r.inactivity_timeout_minutes)))) ↔
    ((∃ au ∈ db.adminUsers, au.id = uid) ∧ m ∈ specEnabledTimeouts db uid) := by
  simp only [specEnabledTimeouts, List.mem_flatMap, List.mem_filter, List.mem_map,
    List.any_eq_true, Bool.and_eq_true, beq_iff_eq, bne_iff_ne, ne_eq]
  constructor
  · intro hL
    obtain ⟨au, ⟨hau, haid⟩, ur, ⟨hur, huid⟩, r, ⟨⟨hr, ⟨hrid, hract⟩, hrt⟩, hm⟩⟩ := hL
    exact ⟨⟨au, hau, haid⟩, r, ⟨hr, ⟨hract, hrt⟩, ur, hur, huid.trans haid, hrid.symm⟩, hm⟩
  · intro hR
    obtain ⟨⟨au, hau, haid⟩, r, ⟨hr, ⟨hract, hrt⟩, ur, hur, huid, hrid⟩, hm⟩ := hR
    exact ⟨au, ⟨hau, haid⟩, ur, ⟨hur, huid.trans haid.symm⟩, r,
      ⟨⟨hr, ⟨hrid.symm, hract⟩, hrt⟩, hm⟩⟩

theorem min?_eq_of_mem_iff {l1 l2 : List Nat} (h : ∀ x, x ∈ l1 ↔ x ∈ l2) :
    l1.min? = l2.min? := by
  cases h2 : l2.min? with
  | none =>
    rw [List.min?_eq_none_iff] at h2
    have h1 : l1 = [] := by
      refine List.eq_nil_iff_forall_not_mem.mpr (fun x hx => ?_)
      rw [h] at hx
      simp [h2] at hx
    simp [h1]
  | some m =>
    rw [List.min?_eq_some_iff'] at h2
    exact List.min?_eq_some_iff'.mpr ⟨(h m).mpr h2.1, fun b hb => h2.2 b ((h b).mp hb)⟩

theorem minTimeoutQuery_eq_spec_min (db : DB) (uid : Nat)
    (hu : ∃ au ∈ db.adminUsers, au.id = uid) :
    minTimeoutQuery db uid = (specEnabledTimeouts db uid).min? := by
  unfold minTimeoutQuery
  refine min?_eq_of_mem_iff (fun m => ?_)
  rw [minTimeout_vals_iff]
  simp [hu]

theorem specEnabledTimeouts_ne_zero (db : DB) (uid m : Nat)
    (hm : m ∈ specEnabledTimeouts db uid) : m ≠ 0 := by
  simp only [specEnabledTimeouts, List.mem_map, List.mem_filter, Bool.and_eq_true,
    bne_iff_ne, ne_eq] at hm
  rcases hm with ⟨r, ⟨_, ⟨_, hrt⟩, _⟩, rfl⟩
  exact hrt

/-- C5: the inactivity timeout the session middleware enforces for a user is
the minimum positive per-role timeout over the user's active roles with the
policy enabled (converted to milliseconds), and when no role enables the
policy the timeout is disabled: `requireAuth` can never reject the session as
inactivity-expired, whatever `lastActivity` and `now` are. -/
theorem C5_min_positive_enabled_timeout (db : DB) (uid : Nat)
    (hu : ∃ au ∈ db.adminUsers, au.id = uid) :
    getInactivityTimeout db uid false =
      (match (specEnabledTimeouts db uid).min? with
       | none => 0
       | some m => m * 60 * 1000) ∧
    (specEnabledTimeouts db uid = [] →
      ∀ sess now uerr, sess.userId = some uid →
        (requireAuth db sess now false uerr).1 ≠ RequireAuthResult.inactivityExpired) := by
  have hmin := minTimeoutQuery_eq_spec_min db uid hu
  constructor
  · unfold getInactivityTimeout
    rw [if_neg (by simp), hmin]
    cases hs : (specEnabledTimeouts db uid).min? with
    | none => rfl
    | some m =>
      have hm : m ∈ specEnabledTimeouts db uid := (List.min?_eq_some_iff'.mp hs).1
      have := specEnabledTimeouts_ne_zero db uid m hm
      simp [this]
  · intro hnil sess now uerr hsess
    have hz : getInactivityTimeout db uid false = 0 := by
      unfold getInactivityTimeout
      rw [if_neg (by simp), hmin, hnil]
      rfl
    simp only [requireAuth, hsess, hz]
    cases hg : getUserById db uid uerr <;> simp [hg]

/-- Fixture for the C5 witness: the user holds three active roles — one with
the policy disabled (timeout 0) and two enabled at 30 and 60 minutes. -/
def inactivityDB : DB :=
  { adminUsers := [sampleUser],
    roles := [{ id := 2, role_name := "Editor", description := "e", is_active := true,
                inactivity_timeout_minutes := 0 },
              { id := 3, role_name := "Teacher", description := "t", is_active := true,
                inactivity_timeout_minutes := 30 },
              { id := 4, role_name := "Viewer", description := "v", is_active := true,
                inactivity_timeout_minutes := 60 }],
    permissions := [],
    userRoles := [{ user_id := 1, role_id := 2, is_active := true },
                  { user_id := 1, role_id := 3, is_active := true },
                  { user_id := 1, role_id := 4, is_active := true }],
    rolePermissions := [] }

/-- Witness for C5: for the fixture the enforced timeout is min {30, 60} = 30
minutes = 1800000 ms. -/
theorem C5_witness :
    (∃ au ∈ inactivityDB.adminUsers, au.id = 1) ∧
    (getInactivityTimeout inactivityDB 1 false =
      (match (specEnabledTimeouts inactivityDB 1).min? with
       | none => 0
       | some m => m * 60 * 1000) ∧
    (specEnabledTimeouts inactivityDB 1 = [] →
      ∀ sess now uerr, sess.userId = some 1 →
        (requireAuth inactivityDB sess now false uerr).1 ≠
          RequireAuthResult.inactivityExpired)) ∧
    getInactivityTimeout inactivityDB 1 false = 1800000 :=
  ⟨⟨sampleUser, by decide, rfl⟩,
   C5_min_positive_enabled_timeout inactivityDB 1 ⟨sampleUser, by decide, rfl⟩,
   by decide⟩

theorem foldl_addRoleEntry_nodup (rows : List QueryRow) :
    ∀ acc : List UserRoleEntry, (acc.map (fun x => x.id)).Nodup →
      ((rows.foldl addRoleEntry acc).map (fun x => x.id)).Nodup := by
  induction rows with
  | nil => intro acc h; simpa using h
  | cons row rest ih =>
    intro acc h
    simp only [List.foldl_cons]
    refine ih _ ?_
    unfold addRoleEntry
    cases hr : row.role with
    | none => exact h
    | some rc =>
      dsimp only
      by_cases hc : (rc.role_id != 0 && !(acc.any (fun x => x.id == rc.role_id))) = true
      · rw [if_pos hc]
        rw [List.map_append, List.nodup_append]
        refine ⟨h, by simp, ?_⟩
        rcases Bool.and_eq_true_iff.mp hc with ⟨-, hnot⟩
        rw [Bool.not_eq_true', List.any_eq_false] at hnot
        intro a ha hb
        simp only [List.map_cons, List.map_nil, List.mem_singleton] at hb
        rcases List.mem_map.mp ha with ⟨x, hx, rfl⟩
        exact absurd hb (by simpa using hnot x hx)
      · rw [if_neg hc]; exact h

theorem foldl_addPermissionEntry_nodup (rows : List QueryRow) :
    ∀ acc : List PermissionEntry, (acc.map (fun x => x.id)).Nodup →
      ((rows.foldl addPermissionEntry acc).map (fun x => x.id)).Nodup := by
  induction rows with
  | nil => intro acc h; simpa using h
  | cons row rest ih =>
    intro acc h
    simp only [List.foldl_cons]
    refine ih _ ?_
    unfold addPermissionEntry
    cases hr : row.perm with
    | none => exact h
    | some pc =>
      dsimp only
      by_cases hc : (pc.permission_id != 0 && !(acc.any (fun x => x.id == pc.permission_id))) = true
      · rw [if_pos hc]
        rw [List.map_append, List.nodup_append]
        refine ⟨h, by simp, ?_⟩
        rcases Bool.and_eq_true_iff.mp hc with ⟨-, hnot⟩
        rw [Bool.not_eq_true', List.any_eq_false] at hnot
        intro a ha hb
        simp only [List.map_cons, List.map_nil, List.mem_singleton] at hb
        rcases List.mem_map.mp ha with ⟨x, hx, rfl⟩
        exact absurd hb (by simpa using hnot x hx)
      · rw [if_neg hc]; exact h

/-- C9: any identity resolved by the middleware's `getUserById` carries no
duplicate role ids and no duplicate permission ids, whatever join paths the
query produced. -/
theorem C9_no_duplicate_ids (db : DB) (uid : Nat) (e : Bool) (au : AuthUser)
    (h : getUserById db uid e = some au) :
    (au.roles.map (fun r => r.id)).Nodup ∧ (au.permissions.map (fun p => p.id)).Nodup := by
  unfold getUserById at h
  by_cases he : e = true
  · simp [he] at h
  · rw [if_neg he] at h
    unfold buildUserFromResults at h
    cases hq : queryUserRows db (fun au => au.id == uid && au.is_active) with
    | nil => rw [hq] at h; cases h
    | cons first rest =>
      rw [hq] at h
      injection h with h2
      rw [← h2]
      exact ⟨foldl_addRoleEntry_nodup _ [] (by simp),
             foldl_addPermissionEntry_nodup _ [] (by simp)⟩

/-- Fixture for the C9 witness: the same active permission 10 is reachable
through two distinct active roles of the same user. -/
def dupDB : DB :=
  { adminUsers := [sampleUser],
    roles := [{ id := 2, role_name := "Editor", description := "e", is_active := true,
                inactivity_timeout_minutes := 0 },
              { id := 3, role_name := "Teacher", description := "t", is_active := true,
                inactivity_timeout_minutes := 0 }],
    permissions := [{ id := 10, permission_name := "news.create", description := "c",
                      is_active := true }],
    userRoles := [{ user_id := 1, role_id := 2, is_active := true },
                  { user_id := 1, role_id := 3, is_active := true }],
    rolePermissions := [{ role_id := 2, permission_id := 10, is_granted := true },
                        { role_id := 3, permission_id := 10, is_granted := true }] }

/-- The identity `getUserById` resolves on `dupDB`: permission 10 appears once
although it is reachable through both role 2 and role 3. -/
def dupResolved : AuthUser :=
  { id := 1, username := "alice", email := "alice@school.edu", fullName := "Alice A",
    isActive := true, lastLoginTs := none, lockedUntilTs := none,
    failedLoginAttempts := 0,
    roles := [{ id := 2, roleName := "Editor", description := "e" },
              { id := 3, roleName := "Teacher", description := "t" }],
    permissions := [{ id := 10, permissionName := "news.create", description := "c" }] }

/-- Witness for C9: on the two-path fixture the resolved identity has
de-duplicated role and permission id lists. -/
theorem C9_witness :
    getUserById dupDB 1 false = some dupResolved ∧
    (dupResolved.roles.map (fun r => r.id)).Nodup ∧
    (dupResolved.permissions.map (fun p => p.id)).Nodup :=
  ⟨by decide, C9_no_duplicate_ids dupDB 1 false dupResolved (by decide)⟩

/-- Spec-side comparator for C1, following the spec's words: role `rid` is
resolved for user `uid` when it is reachable through an ACTIVE UserRole
assignment (`is_active = 1`) to an active role. -/
def specResolvedRole (db : DB) (uid rid : Nat) : Bool :=
  db.adminUsers.any (fun au => au.id == uid && au.is_active &&
    db.userRoles.any (fun ur => ur.user_id == au.id && ur.is_active &&
      db.roles.any (fun r => r.id == ur.role_id && r.is_active && r.id == rid)))

/-- Spec-side comparator for C1, following the spec's words: permission `pid`
is resolved for user `uid` when it is reachable through an ACTIVE UserRole
assignment, an active role, a RolePermission row WITH `granted = 1`, and an
active permission. -/
def specResolvedPermission (db : DB) (uid pid : Nat) : Bool :=
  db.adminUsers.any (fun au => au.id == uid && au.is_active &&
    db.userRoles.any (fun ur => ur.user_id == au.id && ur.is_active &&
      db.roles.any (fun r => r.id == ur.role_id && r.is_active &&
        db.rolePermissions.any (fun rp => rp.role_id == r.id && rp.is_granted &&
          db.permissions.any (fun p => p.id == rp.permission_id && p.is_active &&
            p.id == pid)))))

/-- Fixture refuting C1: the user's only assignment is INACTIVE
(`is_active = 0`) and the only grant row is REVOKED (`is_granted = 0`), yet
both point at an active role and an active permission. -/
def revokedDB : DB :=
  { adminUsers := [sampleUser],
    roles := [{ id := 2, role_name := "Editor", description := "e", is_active := true,
                inactivity_timeout_minutes := 0 }],
    permissions := [{ id := 10, permission_name := "news.create", description := "c",
                      is_active := true }],
    userRoles := [{ user_id := 1, role_id := 2, is_active := false }],
    rolePermissions := [{ role_id := 2, permission_id := 10, is_granted := false }] }

/-- C1 is false as stated: on `revokedDB` the identity resolution of
`getUserById` still returns role 2 and permission 10 — the joins test neither
`UserRoles.is_active` nor `RolePermissions.is_granted` — although the
spec-side resolution (active assignments, granted grants) reaches neither;
so revoking the grant or deactivating the assignment does NOT remove anything
on the next resolution. -/
theorem C1_counterexample :
    (getUserById revokedDB 1 false).map
        (fun au => (au.roles.map (fun r => r.id), au.permissions.map (fun p => p.id))) =
      some ([2], [10]) ∧
    specResolvedRole revokedDB 1 2 = false ∧
    specResolvedPermission revokedDB 1 10 = false := by
  refine ⟨?_, ?_, ?_⟩ <;> decide

theorem mem_addRoleEntry_ids (acc : List UserRoleEntry) (row : QueryRow) (rid : Nat) :
    rid ∈ (addRoleEntry acc row).map (fun x => x.id) ↔
      rid ∈ acc.map (fun x => x.id) ∨
        ∃ rc, row.role = some rc ∧ rc.role_id = rid ∧ rid ≠ 0 := by
  unfold addRoleEntry
  cases hr : row.role with
  | none => simp
  | some rc =>
    dsimp only
    by_cases hc : (rc.role_id != 0 && !(acc.any (fun x => x.id == rc.role_id))) = true
    · rw [if_pos hc]
      rcases Bool.and_eq_true_iff.mp hc with ⟨hne, -⟩
      rw [bne_iff_ne] at hne
      simp only [List.map_append, List.mem_append, List.map_cons, List.map_nil,
        List.mem_singleton]
      constructor
      · rintro (h | h)
        · exact Or.inl h
        · exact Or.inr ⟨rc, rfl, h.symm, by rw [h]; exact hne⟩
      · rintro (h | ⟨rc2, heq, hid, hnz⟩)
        · exact Or.inl h
        · injection heq with h3
          subst h3
          exact Or.inr hid.symm
    · rw [if_neg hc]
      constructor
      · exact Or.inl
      · rintro (h | ⟨rc2, heq, hid, hnz⟩)
        · exact h
        · injection heq with h3
          subst h3
          rw [Bool.and_eq_true, not_and] at hc
          have ha : (rc.role_id != 0) = true := by
            rw [bne_iff_ne, hid]; exact hnz
          have hb : acc.any (fun x => x.id == rc.role_id) = true := by
            simpa using hc ha
          rcases List.any_eq_true.mp hb with ⟨x, hx, hxid⟩
          have hxid2 : x.id = rc.role_id := by simpa using hxid
          exact List.mem_map.mpr ⟨x, hx, by rw [hxid2, hid]⟩

theorem mem_addPermissionEntry_ids (acc : List PermissionEntry) (row : QueryRow) (pid : Nat) :
    pid ∈ (addPermissionEntry acc row).map (fun x => x.id) ↔
      pid ∈ acc.map (fun x => x.id) ∨
        ∃ pc, row.perm = some pc ∧ pc.permission_id = pid ∧ pid ≠ 0 := by
  unfold addPermissionEntry
  cases hr : row.perm with
  | none => simp
  | some pc =>
    dsimp only
    by_cases hc : (pc.permission_id != 0 && !(acc.any (fun x => x.id == pc.permission_id))) = true
    · rw [if_pos hc]
      rcases Bool.and_eq_true_iff.mp hc with ⟨hne, -⟩
      rw [bne_iff_ne] at hne
      simp only [List.map_append, List.mem_append, List.map_cons, List.map_nil,
        List.mem_singleton]
      constructor
      · rintro (h | h)
        · exact Or.inl h
        · exact Or.inr ⟨pc, rfl, h.symm, by rw [h]; exact hne⟩
      · rintro (h | ⟨pc2, heq, hid, hnz⟩)
        · exact Or.inl h
        · injection heq with h3
          subst h3
          exact Or.inr hid.symm
    · rw [if_neg hc]
      constructor
      · exact Or.inl
      · rintro (h | ⟨pc2, heq, hid, hnz⟩)
        · exact h
        · injection heq with h3
          subst h3
          rw [Bool.and_eq_true, not_and] at hc
          have ha : (pc.permission_id != 0) = true := by
            rw [bne_iff_ne, hid]; exact hnz
          have hb : acc.any (fun x => x.id == pc.permission_id) = true := by
            simpa using hc ha
          rcases List.any_eq_true.mp hb with ⟨x, hx, hxid⟩
          have hxid2 : x.id = pc.permission_id := by simpa using hxid
          exact List.mem_map.mpr ⟨x, hx, by rw [hxid2, hid]⟩

theorem mem_foldl_addRoleEntry (rows : List QueryRow) :
    ∀ (acc : List UserRoleEntry) (rid : Nat),
      rid ∈ (rows.foldl addRoleEntry acc).map (fun x => x.id) ↔
        rid ∈ acc.map (fun x => x.id) ∨
          ∃ row ∈ rows, ∃ rc, row.role = some rc ∧ rc.role_id = rid ∧ rid ≠ 0 := by
  induction rows with
  | nil => simp
  | cons row rest ih =>
    intro acc rid
    simp only [List.foldl_cons]
    rw [ih, mem_addRoleEntry_ids]
    constructor
    · rintro ((h | h) | h)
      · exact Or.inl h
      · exact Or.inr ⟨row, List.mem_cons_self row rest, h⟩
      · rcases h with ⟨row2, hrow2, hrest⟩
        exact Or.inr ⟨row2, List.mem_cons_of_mem _ hrow2, hrest⟩
    · rintro (h | ⟨row2, hrow2, hrest⟩)
      · exact Or.inl (Or.inl h)
      · rcases List.mem_cons.mp hrow2 with h2 | h2
        · subst h2; exact Or.inl (Or.inr hrest)
        · exact Or.inr ⟨row2, h2, hrest⟩

theorem mem_foldl_addPermissionEntry (rows : List QueryRow) :
    ∀ (acc : List PermissionEntry) (pid : Nat),
      pid ∈ (rows.foldl addPermissionEntry acc).map (fun x => x.id) ↔
        pid ∈ acc.map (fun x => x.id) ∨
          ∃ row ∈ rows, ∃ pc, row.perm = some pc ∧ pc.permission_id = pid ∧ pid ≠ 0 := by
  induction rows with
  | nil => simp
  | cons row rest ih =>
    intro acc pid
    simp only [List.foldl_cons]
    rw [ih, mem_addPermissionEntry_ids]
    constructor
    · rintro ((h | h) | h)
      · exact Or.inl h
      · exact Or.inr ⟨row, List.mem_cons_self row rest, h⟩
      · rcases h with ⟨row2, hrow2, hrest⟩
        exact Or.inr ⟨row2, List.mem_cons_of_mem _ hrow2, hrest⟩
    · rintro (h | ⟨row2, hrow2, hrest⟩)
      · exact Or.inl (Or.inl h)
      · rcases List.mem_cons.mp hrow2 with h2 | h2
        · subst h2; exact Or.inl (Or.inr hrest)
        · exact Or.inr ⟨row2, h2, hrest⟩

theorem mem_queryUserRows (db : DB) (pred : UserRow → Bool) (row : QueryRow) :
    row ∈ queryUserRows db pred ↔
      ∃ u ∈ db.adminUsers, pred u = true ∧
        ∃ rcpc ∈ roleJoinRows db u, row = mkQueryRow u rcpc.1 rcpc.2 := by
  unfold queryUserRows
  simp only [List.mem_flatMap, List.mem_filter, List.mem_map]
  constructor
  · rintro ⟨u, ⟨hu, hpred⟩, rcpc, hrcpc, heq⟩
    exact ⟨u, hu, hpred, rcpc, hrcpc, heq.symm⟩
  · rintro ⟨u, hu, hpred, rcpc, hrcpc, heq⟩
    exact ⟨u, ⟨hu, hpred⟩, rcpc, hrcpc, heq.symm⟩

theorem roleJoinRows_perm_iff (db : DB) (u : UserRow) (pid : Nat) :
    (∃ rc pc, (rc, some pc) ∈ roleJoinRows db u ∧ pc.permission_id = pid) ↔
      (∃ ur ∈ db.userRoles, ur.user_id = u.id ∧
       ∃ r ∈ db.roles, r.id = ur.role_id ∧ r.is_active = true ∧
       ∃ rp ∈ db.rolePermissions, rp.role_id = r.id ∧
       ∃ p ∈ db.permissions, p.id = rp.permission_id ∧ p.is_active = true ∧
         p.id = pid) := by
  constructor
  · rintro ⟨rc, pc, hmem, rfl⟩
    simp only [roleJoinRows] at hmem
    split at hmem
    · simp at hmem
    · rcases List.mem_flatMap.mp hmem with ⟨ur, hur, hin⟩
      rcases List.mem_filter.mp hur with ⟨hur1, hur2⟩
      cases hfind : db.roles.find? (fun r => r.id == ur.role_id && r.is_active) with
      | none => rw [hfind] at hin; simp at hin
      | some r =>
        rw [hfind] at hin
        rcases List.mem_map.mp hin with ⟨pc0, hpc0, heq⟩
        have hsnd : pc0 = some pc := congrArg Prod.snd heq
        rw [hsnd] at hpc0
        have hrmem := List.mem_of_find?_eq_some hfind
        have hrpred := List.find?_some hfind
        rw [Bool.and_eq_true, beq_iff_eq] at hrpred
        simp only [permJoinRows] at hpc0
        split at hpc0
        · simp at hpc0
        · rcases List.mem_map.mp hpc0 with ⟨rp, hrp, heq2⟩
          rcases List.mem_filter.mp hrp with ⟨hrp1, hrp2⟩
          rcases Option.map_eq_some'.mp heq2 with ⟨p, hpfind, hpcdef⟩
          have hpmem := List.mem_of_find?_eq_some hpfind
          have hppred := List.find?_some hpfind
          rw [Bool.and_eq_true, beq_iff_eq] at hppred
          refine ⟨ur, hur1, eq_of_beq hur2, r, hrmem, hrpred.1, hrpred.2,
            rp, hrp1, eq_of_beq hrp2, p, hpmem, hppred.1, hppred.2, ?_⟩
          rw [← hpcdef]
  · rintro ⟨ur, hur, huid, r, hr, hrid, hract, rp, hrp, hrpid, p, hp, hpid, hpact, hppid⟩
    have hfs : (db.roles.find? (fun r0 => r0.id == ur.role_id && r0.is_active)).isSome := by
      rw [List.find?_isSome]
      exact ⟨r, hr, by rw [Bool.and_eq_true, beq_iff_eq]; exact ⟨hrid, hract⟩⟩
    rcases Option.isSome_iff_exists.mp hfs with ⟨r2, hfind⟩
    have hr2pred := List.find?_some hfind
    rw [Bool.and_eq_true, beq_iff_eq] at hr2pred
    have hps : (db.permissions.find?
        (fun p0 => p0.id == rp.permission_id && p0.is_active)).isSome := by
      rw [List.find?_isSome]
      exact ⟨p, hp, by rw [Bool.and_eq_true, beq_iff_eq]; exact ⟨hpid, hpact⟩⟩
    rcases Option.isSome_iff_exists.mp hps with ⟨p2, hpfind⟩
    have hp2pred := List.find?_some hpfind
    rw [Bool.and_eq_true, beq_iff_eq] at hp2pred
    have hurf : ur ∈ db.userRoles.filter (fun x => x.user_id == u.id) :=
      List.mem_filter.mpr ⟨hur, by rw [beq_iff_eq]; exact huid⟩
    have hrpf : rp ∈ db.rolePermissions.filter (fun x => x.role_id == r2.id) :=
      List.mem_filter.mpr ⟨hrp, by rw [beq_iff_eq, hrpid, hrid, ← hr2pred.1]⟩
    refine ⟨some { role_id := r2.id, role_name := r2.role_name,
                   role_description := r2.description },
            { permission_id := p2.id, permission_name := p2.permission_name,
              permission_description := p2.description }, ?_, ?_⟩
    · simp only [roleJoinRows]
      rw [if_neg (by simp only [List.isEmpty_iff]; exact List.ne_nil_of_mem hurf)]
      rw [List.mem_flatMap]
      refine ⟨ur, hurf, ?_⟩
      rw [hfind, List.mem_map]
      refine ⟨some { permission_id := p2.id, permission_name := p2.permission_name,
                     permission_description := p2.description }, ?_, rfl⟩
      simp only [permJoinRows]
      rw [if_neg (by simp only [List.isEmpty_iff]; exact List.ne_nil_of_mem hrpf)]
      rw [List.mem_map]
      exact ⟨rp, hrpf, by rw [hpfind]; rfl⟩
    · show p2.id = pid
      rw [hp2pred.1, ← hpid]
      exact hppid

theorem roleJoinRows_role_iff (db : DB) (u : UserRow) (rid : Nat) :
    (∃ rc pc, (some rc, pc) ∈ roleJoinRows db u ∧ rc.role_id = rid) ↔
      (∃ ur ∈ db.userRoles, ur.user_id = u.id ∧
       ∃ r ∈ db.roles, r.id = ur.role_id ∧ r.is_active = true ∧ r.id = rid) := by
  constructor
  · rintro ⟨rc, pc, hmem, rfl⟩
    simp only [roleJoinRows] at hmem
    split at hmem
    · simp at hmem
    · rcases List.mem_flatMap.mp hmem with ⟨ur, hur, hin⟩
      rcases List.mem_filter.mp hur with ⟨hur1, hur2⟩
      cases hfind : db.roles.find? (fun r => r.id == ur.role_id && r.is_active) with
      | none => rw [hfind] at hin; simp at hin
      | some r =>
        rw [hfind] at hin
        rcases List.mem_map.mp hin with ⟨pc0, hpc0, heq⟩
        have hfst : (some { role_id := r.id, role_name := r.role_name,
                            role_description := r.description } : Option RoleCols) =
            some rc := congrArg Prod.fst heq
        injection hfst with hfst2
        have hrmem := List.mem_of_find?_eq_some hfind
        have hrpred := List.find?_some hfind
        rw [Bool.and_eq_true, beq_iff_eq] at hrpred
        refine ⟨ur, hur1, eq_of_beq hur2, r, hrmem, hrpred.1, hrpred.2, ?_⟩
        rw [← hfst2]
  · rintro ⟨ur, hur, huid, r, hr, hrid, hract, hridr⟩
    have hfs : (db.roles.find? (fun r0 => r0.id == ur.role_id && r0.is_active)).isSome := by
      rw [List.find?_isSome]
      exact ⟨r, hr, by rw [Bool.and_eq_true, beq_iff_eq]; exact ⟨hrid, hract⟩⟩
    rcases Option.isSome_iff_exists.mp hfs with ⟨r2, hfind⟩
    have hr2pred := List.find?_some hfind
    rw [Bool.and_eq_true, beq_iff_eq] at hr2pred
    have hurf : ur ∈ db.userRoles.filter (fun x => x.user_id == u.id) :=
      List.mem_filter.mpr ⟨hur, by rw [beq_iff_eq]; exact huid⟩
    cases hpj : permJoinRows db r2 with
    | nil => exact absurd hpj (permJoinRows_ne_nil db r2)
    | cons pc0 rest =>
      refine ⟨{ role_id := r2.id, role_name := r2.role_name,
                role_description := r2.description }, pc0, ?_, ?_⟩
      · simp only [roleJoinRows]
        rw [if_neg (by simp only [List.isEmpty_iff]; exact List.ne_nil_of_mem hurf)]
        rw [List.mem_flatMap]
        refine ⟨ur, hurf, ?_⟩
        rw [hfind, List.mem_map]
        exact ⟨pc0, by rw [hpj]; exact List.mem_cons_self pc0 rest, rfl⟩
      · show r2.id = rid
        rw [hr2pred.1, ← hrid]
        exact hridr

/-- C1 (amended): the identity that `getUserById` resolves for an active user
contains exactly the (non-zero) ids of roles reachable through ANY UserRole
assignment row — active or not — to an active role, and exactly the (non-zero)
ids of permissions reachable further through ANY RolePermission row — granted
or revoked — to an active permission.  Consequently revoking a grant
(`granted = 0`) or deactivating an assignment does not change the resolved
identity on the next call, whereas deactivating the role or the permission
itself does. -/
theorem C1_resolution_ignores_assignment_and_grant_flags (db : DB) (uid : Nat)
    (au : AuthUser) (h : getUserById db uid false = some au) :
    (∀ rid, rid ∈ au.roles.map (fun x => x.id) ↔
      (rid ≠ 0 ∧ ∃ u ∈ db.adminUsers, u.id = uid ∧ u.is_active = true ∧
        ∃ ur ∈ db.userRoles, ur.user_id = u.id ∧
        ∃ r ∈ db.roles, r.id = ur.role_id ∧ r.is_active = true ∧ r.id = rid)) ∧
    (∀ pid, pid ∈ au.permissions.map (fun x => x.id) ↔
      (pid ≠ 0 ∧ ∃ u ∈ db.adminUsers, u.id = uid ∧ u.is_active = true ∧
        ∃ ur ∈ db.userRoles, ur.user_id = u.id ∧
        ∃ r ∈ db.roles, r.id = ur.role_id ∧ r.is_active = true ∧
        ∃ rp ∈ db.rolePermissions, rp.role_id = r.id ∧
        ∃ p ∈ db.permissions, p.id = rp.permission_id ∧ p.is_active = true ∧
          p.id = pid)) := by
  have h2 : buildUserFromResults
      (queryUserRows db (fun au0 => au0.id == uid && au0.is_active)) = some au := h
  unfold buildUserFromResults at h2
  cases hq : queryUserRows db (fun au0 => au0.id == uid && au0.is_active) with
  | nil => rw [hq] at h2; cases h2
  | cons first rest =>
    rw [hq] at h2
    injection h2 with h3
    constructor
    · intro rid
      have hroles : au.roles = (first :: rest).foldl addRoleEntry [] :=
        congrArg AuthUser.roles h3.symm
      rw [hroles, ← hq, mem_foldl_addRoleEntry]
      simp only [List.map_nil, List.not_mem_nil, false_or]
      constructor
      · rintro ⟨row, hrow, rc, hrc, hrcid, hnz⟩
        rcases (mem_queryUserRows _ _ _).mp hrow with ⟨u, hu, hpred, rcpc, hrcpc, heqrow⟩
        rw [Bool.and_eq_true, beq_iff_eq] at hpred
        have hrole : rcpc.1 = some rc := by rw [heqrow] at hrc; exact hrc
        have hmem2 : (some rc, rcpc.2) ∈ roleJoinRows db u := by
          rw [← hrole]
          exact hrcpc
        refine ⟨hnz, u, hu, hpred.1, hpred.2, ?_⟩
        exact (roleJoinRows_role_iff db u rid).mp ⟨rc, rcpc.2, hmem2, hrcid⟩
      · rintro ⟨hnz, u, hu, huid, hact, hrest⟩
        rcases (roleJoinRows_role_iff db u rid).mpr hrest with ⟨rc, pc, hmem2, hrcid⟩
        refine ⟨mkQueryRow u (some rc) pc, ?_, rc, rfl, hrcid, hnz⟩
        rw [mem_queryUserRows]
        exact ⟨u, hu, by rw [Bool.and_eq_true, beq_iff_eq]; exact ⟨huid, hact⟩,
               (some rc, pc), hmem2, rfl⟩
    · intro pid
      have hperms : au.permissions = (first :: rest).foldl addPermissionEntry [] :=
        congrArg AuthUser.permissions h3.symm
      rw [hperms, ← hq, mem_foldl_addPermissionEntry]
      simp only [List.map_nil, List.not_mem_nil, false_or]
      constructor
      · rintro ⟨row, hrow, pc, hpc, hpcid, hnz⟩
        rcases (mem_queryUserRows _ _ _).mp hrow with ⟨u, hu, hpred, rcpc, hrcpc, heqrow⟩
        rw [Bool.and_eq_true, beq_iff_eq] at hpred
        have hperm : rcpc.2 = some pc := by rw [heqrow] at hpc; exact hpc
        have hmem2 : (rcpc.1, some pc) ∈ roleJoinRows db u := by
          rw [← hperm]
          exact hrcpc
        refine ⟨hnz, u, hu, hpred.1, hpred.2, ?_⟩
        exact (roleJoinRows_perm_iff db u pid).mp ⟨rcpc.1, pc, hmem2, hpcid⟩
      · rintro ⟨hnz, u, hu, huid, hact, hrest⟩
        rcases (roleJoinRows_perm_iff db u pid).mpr hrest with ⟨rc, pc, hmem2, hpcid⟩
        refine ⟨mkQueryRow u rc (some pc), ?_, pc, rfl, hpcid, hnz⟩
        rw [mem_queryUserRows]
        exact ⟨u, hu, by rw [Bool.and_eq_true, beq_iff_eq]; exact ⟨huid, hact⟩,
               (rc, some pc), hmem2, rfl⟩

/-- The identity `getUserById` resolves on `revokedDB`: the inactive
assignment and the revoked grant are walked anyway. -/
def revokedResolved : AuthUser :=
  { id := 1, username := "alice", email := "alice@school.edu", fullName := "Alice A",
    isActive := true, lastLoginTs := none, lockedUntilTs := none,
    failedLoginAttempts := 0,
    roles := [{ id := 2, roleName := "Editor", description := "e" }],
    permissions := [{ id := 10, permissionName := "news.create", description := "c" }] }

/-- Witness for the amended C1, on the revoked fixture. -/
theorem C1_witness :
    getUserById revokedDB 1 false = some revokedResolved ∧
    ((∀ rid, rid ∈ revokedResolved.roles.map (fun x => x.id) ↔
      (rid ≠ 0 ∧ ∃ u ∈ revokedDB.adminUsers, u.id = 1 ∧ u.is_active = true ∧
        ∃ ur ∈ revokedDB.userRoles, ur.user_id = u.id ∧
        ∃ r ∈ revokedDB.roles, r.id = ur.role_id ∧ r.is_active = true ∧ r.id = rid)) ∧
    (∀ pid, pid ∈ revokedResolved.permissions.map (fun x => x.id) ↔
      (pid ≠ 0 ∧ ∃ u ∈ revokedDB.adminUsers, u.id = 1 ∧ u.is_active = true ∧
        ∃ ur ∈ revokedDB.userRoles, ur.user_id = u.id ∧
        ∃ r ∈ revokedDB.roles, r.id = ur.role_id ∧ r.is_active = true ∧
        ∃ rp ∈ revokedDB.rolePermissions, rp.role_id = r.id ∧
        ∃ p ∈ revokedDB.permissions, p.id = rp.permission_id ∧ p.is_active = true ∧
          p.id = pid))) :=
  ⟨by decide,
   C1_resolution_ignores_assignment_and_grant_flags revokedDB 1 revokedResolved (by decide)⟩
